import Mathlib

/-!
Verification of the diagnostic core of hdd-monitor-linux.

This file is a shallow embedding, in Lean 4, of the pure logic of the
repository's core modules:

* `src/core/fake_detector.py`  — capacity cross-checks, HPA detection and
  the fake-disk verdict aggregation;
* `src/core/health_score.py`   — the SMART health scorer;
* `src/core/smart_parser.py`   — the SMART output parser and its
  driver-hint fallback loop;
* `src/core/test_runner.py`    — the diagnostic test orchestrator.

Subprocess invocations are modelled by passing the external tools' textual
responses (or their absence) in as explicit inputs; wall-clock timing,
float string formatting and the GUI are outside the embedding.  Python's
`float` arithmetic is rendered with `Rat`; the few places where rounding
could differ are noted at the definition.
-/

namespace HddMonitor

/-- Whether `pat` occurs as a contiguous sublist of `s`. -/
def listContains : List Char → List Char → Bool
  | [], pat => pat.isEmpty
  | c :: rest, pat => pat.isPrefixOf (c :: rest) || listContains rest pat

/-- Python's substring test `pat in s`, on the underlying character lists. -/
def containsSub (s pat : String) : Bool :=
  listContains s.data pat.data

/-- Python's `str.lower()`, character by character (structural, so that
concrete runs evaluate inside the kernel). -/
def strLower (s : String) : String :=
  String.mk (s.data.map Char.toLower)

/-- Python's `str.rstrip(chars)`: drop trailing characters that are in `chars`. -/
def rstripSet (s : String) (chars : List Char) : String :=
  String.mk ((s.data.reverse.dropWhile (fun c => chars.contains c)).reverse)

namespace FakeDetector

/-- `FakeStatus` enum, `src/core/fake_detector.py` lines 16-21. -/
inductive FakeStatus where
  | GENUINE
  | SUSPICIOUS
  | FAKE
  | UNKNOWN
  | UNTESTED
deriving DecidableEq, Repr

/-- `TestResult` enum of the fake detector, `src/core/fake_detector.py` lines 23-28. -/
inductive TestResult where
  | PASSED
  | FAILED
  | WARNING
  | SKIPPED
  | ERROR
deriving DecidableEq, Repr

/-- `CapacityInfo` dataclass, `src/core/fake_detector.py` lines 30-40.
Byte and sector counts are Python ints, embedded as `Int`. -/
structure CapacityInfo where
  lsblk_bytes : Int
  fdisk_bytes : Int
  smart_bytes : Int
  hdparm_native_sectors : Int
  hdparm_max_sectors : Int
  lsblk_human : String
  fdisk_human : String
  smart_human : String
deriving DecidableEq, Repr

/-- The dataclass's all-default instance (every count 0, every string empty). -/
def CapacityInfo.zero : CapacityInfo := ⟨0, 0, 0, 0, 0, "", "", ""⟩

/-- `CapacityInfo.has_hpa`, lines 42-45: both sector counts known (positive)
and different. -/
def CapacityInfo.has_hpa (c : CapacityInfo) : Bool :=
  if 0 < c.hdparm_native_sectors ∧ 0 < c.hdparm_max_sectors then
    decide (c.hdparm_native_sectors ≠ c.hdparm_max_sectors)
  else
    false

/-- `CapacityInfo.get_hpa_size_bytes`, lines 47-50: the source computes
`(hdparm_max_sectors - hdparm_native_sectors) * 512` (current minus native). -/
def CapacityInfo.get_hpa_size_bytes (c : CapacityInfo) : Int :=
  if c.has_hpa then (c.hdparm_max_sectors - c.hdparm_native_sectors) * 512 else 0

/-- The `values` list of `has_capacity_mismatch`, line 53: the byte-size
sources that reported a positive value. -/
def CapacityInfo.sources (c : CapacityInfo) : List Int :=
  [c.lsblk_bytes, c.fdisk_bytes, c.smart_bytes].filter (fun v => decide (0 < v))

/-- `CapacityInfo.has_capacity_mismatch`, lines 52-64.  The Python float
expression `((max_val - min_val) / max_val) * 100 > tolerance_pct` is
embedded over `Rat`. -/
def CapacityInfo.has_capacity_mismatch (c : CapacityInfo) (tolerance_pct : Rat) : Bool :=
  let values := c.sources
  if values.length < 2 then false
  else
    match values with
    | [] => false
    | v :: vs =>
      let max_val := vs.foldl max v
      let min_val := vs.foldl min v
      if max_val = 0 then false
      else decide ((((max_val - min_val : Int) : Rat) / (max_val : Rat)) * 100 > tolerance_pct)

/-- The relative spread, in percent, between the largest and smallest
positive capacity source (0 when no source reported). -/
def CapacityInfo.spread_pct (c : CapacityInfo) : Rat :=
  match c.sources with
  | [] => 0
  | v :: vs =>
    (((vs.foldl max v - vs.foldl min v : Int) : Rat) / ((vs.foldl max v : Int) : Rat)) * 100

/-- `FakeTestResult` dataclass, lines 66-72. -/
structure FakeTestResult where
  name : String
  result : TestResult
  message : String
  details : String
  is_destructive : Bool
deriving DecidableEq, Repr

/-- `FakeDetectorReport` dataclass, lines 74-84.  `confidence` is 0-100. -/
structure FakeDetectorReport where
  device : String
  status : FakeStatus
  confidence : Nat
  capacity : CapacityInfo
  tests : List FakeTestResult
  summary : String
  recommendations : List String
deriving DecidableEq, Repr

/-- `FakeDetectorReport.get_failed_tests`, lines 89-90. -/
def FakeDetectorReport.get_failed_tests (r : FakeDetectorReport) : List FakeTestResult :=
  r.tests.filter (fun t => t.result == TestResult.FAILED)

/-- `FakeDetectorReport.get_warnings`, lines 92-93. -/
def FakeDetectorReport.get_warnings (r : FakeDetectorReport) : List FakeTestResult :=
  r.tests.filter (fun t => t.result == TestResult.WARNING)

/-- Two-decimal rendering of a rational, used by `bytes_to_human`.  Python
formats with `%.2f` (round half even); this embedding truncates toward
negative infinity — the difference is confined to display strings. -/
def formatTwoDecimals (q : Rat) : String :=
  let ip := q.floor
  let fr := ((q - (ip : Rat)) * 100).floor.toNat
  toString ip ++ "." ++ (if fr < 10 then "0" ++ toString fr else toString fr)

/-- Loop of `_bytes_to_human`, lines 315-321. -/
def bytes_to_human_go : List String → Rat → String
  | [], q => formatTwoDecimals q ++ " PB"
  | u :: us, q =>
    if |q| < 1024 then formatTwoDecimals q ++ " " ++ u
    else bytes_to_human_go us (q / 1024)

/-- `FakeDetector._bytes_to_human`, lines 315-321. -/
def bytes_to_human (n : Int) : String :=
  bytes_to_human_go ["B", "KB", "MB", "GB", "TB"] (n : Rat)

/-- `FakeDetector._check_hpa`, lines 168-183. -/
def check_hpa (_device : String) (cap : CapacityInfo) : FakeTestResult :=
  if cap.has_hpa then
    { name := "HPA"
      result := TestResult.WARNING
      message := "Área protegida (HPA) detectada: " ++ bytes_to_human cap.get_hpa_size_bytes
      details := "Native: " ++ toString cap.hdparm_native_sectors ++ " setores\n" ++
        "Current: " ++ toString cap.hdparm_max_sectors ++ " setores"
      is_destructive := false }
  else
    { name := "HPA"
      result := TestResult.PASSED
      message := "Nenhuma HPA detectada"
      details := ""
      is_destructive := false }

/-- `FakeDetector._check_capacity_consistency`, lines 185-197 (tolerance is
the source's default, 5.0 percent). -/
def check_capacity_consistency (cap : CapacityInfo) : FakeTestResult :=
  if cap.has_capacity_mismatch 5 then
    { name := "Capacidade"
      result := TestResult.FAILED
      message := "Discrepância significativa entre fontes de capacidade"
      details := ""
      is_destructive := false }
  else
    { name := "Capacidade"
      result := TestResult.PASSED
      message := "Capacidades consistentes entre fontes"
      details := ""
      is_destructive := false }

/-- `FakeDetector._check_suspect_features`, lines 199-205: always SKIPPED. -/
def check_suspect_features (_device : String) : FakeTestResult :=
  { name := "Características suspeitas"
    result := TestResult.SKIPPED
    message := "Análise de características não implementada nesta versão"
    details := ""
    is_destructive := false }

/-- Classification of the f3probe output by `_run_f3probe`, lines 208-239
(the natural-exit path; timeout and spawn failure yield ERROR results and
are not needed below). -/
def run_f3probe_classify (output : String) : FakeTestResult :=
  if containsSub (strLower output) "seems to be" && containsSub (strLower output) "fake" then
    { name := "f3probe", result := TestResult.FAILED
      message := "Disco falso confirmado pelo f3probe", details := output, is_destructive := true }
  else if containsSub (strLower output) "real" || containsSub (strLower output) "genuine" then
    { name := "f3probe", result := TestResult.PASSED
      message := "Disco parece genuíno segundo f3probe", details := output, is_destructive := true }
  else
    { name := "f3probe", result := TestResult.ERROR
      message := "Resultado inconclusivo do f3probe", details := output, is_destructive := true }

/-- `FakeDetector._calculate_final_status`, lines 258-313: the verdict
aggregation (first match wins) plus the conditional recommendations. -/
def calculate_final_status (r : FakeDetectorReport) : FakeDetectorReport :=
  let failed := r.get_failed_tests
  let warnings := r.get_warnings
  let passed := r.tests.filter (fun t => t.result == TestResult.PASSED)
  let fail_points := failed.length * 30
  let warn_points := warnings.length * 10
  let pass_points := passed.length * 20
  let verdict : FakeStatus × Nat × String :=
    if failed.any (fun t => t.name == "f3probe" && t.result == TestResult.FAILED) then
      (FakeStatus.FAKE, 100, "🔴 DISCO FALSO CONFIRMADO pelo f3probe")
    else if 2 ≤ failed.length then
      (FakeStatus.FAKE, min 90 (50 + fail_points), "🔴 ALTA PROBABILIDADE DE FALSIFICAÇÃO")
    else if failed ≠ [] then
      (FakeStatus.SUSPICIOUS, min 70 (30 + fail_points + warn_points),
        "🟡 SUSPEITO - Recomendado teste completo")
    else if warnings ≠ [] then
      (FakeStatus.SUSPICIOUS, min 50 (20 + warn_points), "🟡 Algumas características suspeitas")
    else if passed ≠ [] then
      (FakeStatus.GENUINE, min 80 pass_points, "🟢 Parece autêntico (recomendado f3probe para 100%)")
    else
      (FakeStatus.UNKNOWN, 0, "⚪ Não foi possível determinar")
  let recommendations :=
    (if verdict.1 = FakeStatus.SUSPICIOUS ∨ verdict.1 = FakeStatus.UNKNOWN then
      ["Execute o teste f3probe para confirmação definitiva (ATENÇÃO: apaga todos os dados!)"]
    else []) ++
    (if r.capacity.has_hpa then
      ["Área protegida (HPA) detectada. Pode ser desabilitada com: " ++
        "sudo hdparm --yes-i-know-what-i-am-doing -N p" ++
        toString r.capacity.hdparm_max_sectors ++ " " ++ r.device]
    else []) ++
    (if verdict.1 = FakeStatus.FAKE then
      ["NÃO use este disco para armazenar dados importantes!",
       "Se foi compra recente, solicite reembolso ao vendedor"]
    else [])
  { r with
    status := verdict.1
    confidence := verdict.2.1
    summary := verdict.2.2
    recommendations := recommendations }

/-- `FakeDetector.quick_check`, lines 96-112.  The capacities collected by
`_collect_capacities` (subprocess output) enter as the `cap` argument. -/
def quick_check (device : String) (cap : CapacityInfo) : FakeDetectorReport :=
  calculate_final_status
    { device := device
      status := FakeStatus.UNTESTED
      confidence := 0
      capacity := cap
      tests := [check_hpa device cap, check_capacity_consistency cap,
        check_suspect_features device]
      summary := ""
      recommendations := [] }

/-- `FakeDetector.full_check`, lines 114-123: quick check, then, when
destructive probing is authorized, the classified f3probe result is
appended and the verdict recomputed.  `f3_output` is the probe's combined
stdout+stderr. -/
def full_check (device : String) (cap : CapacityInfo) (allow_destructive : Bool)
    (f3_output : String) : FakeDetectorReport :=
  let report := quick_check device cap
  if allow_destructive then
    calculate_final_status
      { report with tests := report.tests ++ [run_f3probe_classify f3_output] }
  else
    report

end FakeDetector

namespace SmartParser

/-- `SmartStatus` enum, `src/core/smart_parser.py` lines 19-24. -/
inductive SmartStatus where
  | OK
  | WARNING
  | CRITICAL
  | UNKNOWN
deriving DecidableEq, Repr

/-- `SMART_ATTRIBUTES` table, lines 28-49: attribute id to (name, description). -/
def SMART_ATTRIBUTES : List (Nat × String × String) :=
  [(1, "Raw_Read_Error_Rate", "Taxa de erros de leitura"),
   (3, "Spin_Up_Time", "Tempo de spin-up"),
   (4, "Start_Stop_Count", "Contagem start/stop"),
   (5, "Reallocated_Sector_Ct", "Setores realocados"),
   (7, "Seek_Error_Rate", "Taxa de erros de seek"),
   (9, "Power_On_Hours", "Horas ligado"),
   (10, "Spin_Retry_Count", "Tentativas de spin"),
   (11, "Calibration_Retry_Count", "Tentativas de calibração"),
   (12, "Power_Cycle_Count", "Ciclos de energia"),
   (187, "Reported_Uncorrect", "Erros não corrigidos reportados"),
   (188, "Command_Timeout", "Timeouts de comando"),
   (190, "Airflow_Temperature", "Temperatura do ar"),
   (194, "Temperature_Celsius", "Temperatura"),
   (196, "Reallocated_Event_Count", "Eventos de realocação"),
   (197, "Current_Pending_Sector", "Setores pendentes"),
   (198, "Offline_Uncorrectable", "Setores incorrigíveis offline"),
   (199, "UDMA_CRC_Error_Count", "Erros CRC UDMA"),
   (200, "Multi_Zone_Error_Rate", "Taxa de erros multi-zona"),
   (241, "Total_LBAs_Written", "Total LBAs escritos"),
   (242, "Total_LBAs_Read", "Total LBAs lidos")]

/-- `CRITICAL_ATTRIBUTES`, line 52. -/
def CRITICAL_ATTRIBUTES : List Nat := [5, 10, 187, 196, 197, 198]

/-- `WARNING_ATTRIBUTES`, line 55. -/
def WARNING_ATTRIBUTES : List Nat := [1, 7, 188, 199, 200]

/-- `VENDOR_SIGNATURES`, lines 58-72 (insertion order preserved; the vendor
loop takes the first matching signature). -/
def VENDOR_SIGNATURES : List (String × String) :=
  [("WDC", "Western Digital"), ("WD", "Western Digital"),
   ("Seagate", "Seagate"), ("ST", "Seagate"),
   ("TOSHIBA", "Toshiba"), ("HGST", "HGST"), ("Hitachi", "Hitachi"),
   ("Samsung", "Samsung"), ("SAMSUNG", "Samsung"),
   ("SanDisk", "SanDisk"), ("Kingston", "Kingston"),
   ("Crucial", "Crucial"), ("Intel", "Intel")]

/-- `SmartAttribute` dataclass, lines 75-89. -/
structure SmartAttribute where
  id : Nat
  name : String
  description : String
  value : Int
  worst : Int
  threshold : Int
  raw_value : Int
  status : SmartStatus
deriving DecidableEq, Repr

/-- `SmartAttribute.is_failing`, lines 87-89. -/
def SmartAttribute.is_failing (a : SmartAttribute) : Bool :=
  decide (a.value ≤ a.threshold ∧ 0 < a.threshold)

/-- `SmartData` dataclass, lines 92-117.  `attributes` is the id-keyed
mapping, embedded as an association list with unique keys (dict overwrite
is `attrsInsert` below). -/
structure SmartData where
  device : String
  vendor : String
  model : String
  serial : String
  firmware : String
  capacity : String
  driver : String
  smart_supported : Bool
  smart_enabled : Bool
  health_passed : Bool
  temperature : Option Int
  power_on_hours : Int
  power_cycles : Int
  attributes : List (Nat × SmartAttribute)
  raw_output : String
  reallocated_sectors : Int
  pending_sectors : Int
  uncorrectable_sectors : Int
deriving DecidableEq, Repr

/-- The dataclass defaults of `SmartData` for a given device. -/
def SmartData.empty (device : String) : SmartData :=
  ⟨device, "Unknown", "", "", "", "", "", false, false, true, none, 0, 0, [], "", 0, 0, 0⟩

/-- Python dict assignment `attributes[k] = v`: overwrite in place, or
append when the key is new. -/
def attrsInsert (m : List (Nat × SmartAttribute)) (k : Nat) (v : SmartAttribute) :
    List (Nat × SmartAttribute) :=
  if m.any (fun p => p.1 == k) then m.map (fun p => if p.1 == k then (k, v) else p)
  else m ++ [(k, v)]

/-- `SmartData.get_attr`, lines 119-121. -/
def SmartData.get_attr (s : SmartData) (attr_id : Nat) : Option SmartAttribute :=
  (s.attributes.find? (fun p => p.1 == attr_id)).map (fun p => p.2)

/-- `SmartData.get_attr_raw`, lines 123-126. -/
def SmartData.get_attr_raw (s : SmartData) (attr_id : Nat) (dflt : Int) : Int :=
  match s.get_attr attr_id with
  | some a => a.raw_value
  | none => dflt

/-- A trimmed, non-empty remainder, as captured by a `\s+(.+)` tail. -/
def strTrimNonempty (s : String) : Option String :=
  let t := s.trim
  if t = "" then none else some t

/-- The text a label-anchored search captures on one line: what follows the
first occurrence of `label`, trimmed; `none` when the label is absent or
nothing follows it. -/
def afterLabelInLine (label line : String) : Option String :=
  match line.splitOn label with
  | _ :: r :: rs => strTrimNonempty (String.intercalate label (r :: rs))
  | _ => none

/-- First line of `output` on which one of `labels` captures a value
(embeds `re.search` with a label alternation over the whole output). -/
def firstLabeled (labels : List String) (output : String) : Option String :=
  (output.splitOn "\n").findSome? (fun line =>
    labels.findSome? (fun lab => afterLabelInLine lab line))

/-- `SmartParser._parse_device_info`, lines 233-260.  The capacity value is
cut at a following ` [`, as the source's lazy group does. -/
def parse_device_info (s : SmartData) (output : String) : SmartData :=
  let model := (firstLabeled ["Device Model:", "Model Number:", "Product:"] output).getD s.model
  let vendor :=
    ((VENDOR_SIGNATURES.find? (fun p => containsSub (strLower model) (strLower p.1))).map
      (fun p => p.2)).getD s.vendor
  let serial := (firstLabeled ["Serial Number:"] output).getD s.serial
  let firmware := (firstLabeled ["Firmware Version:"] output).getD s.firmware
  let capacity :=
    ((firstLabeled ["User Capacity:"] output).map
      (fun v => ((v.splitOn " [").headD v).trim)).getD s.capacity
  { s with
    model := model
    vendor := vendor
    serial := serial
    firmware := firmware
    capacity := capacity }

/-- `SmartParser._parse_smart_status`, lines 262-271. -/
def parse_smart_status (s : SmartData) (output : String) : SmartData :=
  { s with
    smart_supported := containsSub output "SMART support is: Available" ||
      containsSub output "SMART/Health"
    smart_enabled := containsSub output "SMART support is: Enabled" ||
      containsSub output "SMART/Health"
    health_passed :=
      if containsSub output "PASSED" then true
      else if containsSub output "FAILED" then false
      else s.health_passed }

/-- A non-empty all-digit token. -/
def isDigits (t : String) : Bool :=
  !t.isEmpty && t.data.all Char.isDigit

/-- A `0x[0-9a-f]+` token (the pattern is compiled with IGNORECASE). -/
def isHexFlag (t : String) : Bool :=
  (strLower t).startsWith "0x" && !(t.drop 2).isEmpty &&
    ((strLower t).drop 2).data.all (fun c => c.isDigit || "abcdef".data.contains c)

/-- The leading decimal run of a token (`(\d+)` against the raw-value
field, which may carry trailing annotation text). -/
def leadingNat (t : String) : Option Nat :=
  let ds := t.data.takeWhile Char.isDigit
  if ds.isEmpty then none else (String.mk ds).toNat?

/-- Split a line on whitespace runs (the `\s+` separators of the
attribute-table pattern). -/
def splitWs (line : String) : List String :=
  (line.split (fun c => c == ' ' || c == '\t' || c == '\r')).filter (fun t => t ≠ "")

/-- One attribute-table line, per the fixed-column pattern of
`_parse_attributes` (lines 278-290): id, name, hex flag, value, worst,
threshold, type, updated, when-failed, raw value.  Returns
(id, name, value, worst, threshold, raw). -/
def parse_attr_line (line : String) : Option (Nat × String × Nat × Nat × Nat × Nat) :=
  match splitWs line with
  | idT :: nameT :: flagT :: vT :: wT :: thT :: _ty :: _upd :: _wf :: rawT :: _ =>
    if isDigits idT && isHexFlag flagT && isDigits vT && isDigits wT && isDigits thT then
      match idT.toNat?, vT.toNat?, wT.toNat?, thT.toNat?, leadingNat rawT with
      | some i, some v, some w, some th, some raw => some (i, nameT, v, w, th, raw)
      | _, _, _, _, _ => none
    else none
  | _ => none

/-- The per-attribute status computed at lines 306-312. -/
def attr_status (attr_id raw value threshold : Nat) : SmartStatus :=
  if CRITICAL_ATTRIBUTES.contains attr_id && decide (0 < raw) then SmartStatus.CRITICAL
  else if WARNING_ATTRIBUTES.contains attr_id && decide (100 < raw) then SmartStatus.WARNING
  else if decide (value ≤ threshold) && decide (0 < threshold) then SmartStatus.CRITICAL
  else SmartStatus.OK

/-- ASCII whitespace, for the `\s` classes of the scraping patterns. -/
def isSpaceChar (c : Char) : Bool :=
  c == ' ' || c == '\t' || c == '\n' || c == '\r'

/-- `re.search`: try `f` on the suffix after `marker` at each position,
left to right. -/
def scanAfter (cs : List Char) (marker : List Char) (f : List Char → Option Nat) : Option Nat :=
  match cs with
  | [] => none
  | _ :: rest =>
    match (if marker.isPrefixOf cs then f (cs.drop marker.length) else none) with
    | some n => some n
    | none => scanAfter rest marker f

/-- Tail matcher for `\s+(\d+)\s*(?:Celsius|C)` (case already folded). -/
def nvmeTempAfter (after : List Char) : Option Nat :=
  if (after.takeWhile isSpaceChar).isEmpty then none
  else
    let rest1 := after.dropWhile isSpaceChar
    let ds := rest1.takeWhile Char.isDigit
    if ds.isEmpty then none
    else if ((rest1.dropWhile Char.isDigit).dropWhile isSpaceChar).headD ' ' == 'c' then
      (String.mk ds).toNat?
    else none

/-- Tail matcher for `\s*(\d+)`. -/
def numAfterWs0Digits (after : List Char) : Option Nat :=
  let ds := (after.dropWhile isSpaceChar).takeWhile Char.isDigit
  if ds.isEmpty then none else (String.mk ds).toNat?

/-- Tail matcher for `[:\s]+(\d+)`. -/
def numAfterColonSpace (after : List Char) : Option Nat :=
  let sep := fun c => c == ':' || isSpaceChar c
  if (after.takeWhile sep).isEmpty then none
  else
    let ds := (after.dropWhile sep).takeWhile Char.isDigit
    if ds.isEmpty then none else (String.mk ds).toNat?

/-- Tail matcher for `\s+([\d,]+)`, commas removed before conversion. -/
def numAfterWsDigitsComma (after : List Char) : Option Nat :=
  if (after.takeWhile isSpaceChar).isEmpty then none
  else
    let run := (after.dropWhile isSpaceChar).takeWhile (fun c => c.isDigit || c == ',')
    let ds := run.filter Char.isDigit
    if ds.isEmpty then none else (String.mk ds).toNat?

/-- `SmartParser._parse_nvme_attributes`, lines 329-345 (the temperature
pattern is case-insensitive; the hour/cycle patterns are not). -/
def parse_nvme_attributes (s : SmartData) (output : String) : SmartData :=
  let t := scanAfter (strLower output).data "temperature:".data nvmeTempAfter
  let poh := scanAfter output.data "Power On Hours:".data numAfterWsDigitsComma
  let pc := scanAfter output.data "Power Cycles:".data numAfterWsDigitsComma
  { s with
    temperature := match t with | some n => some (n : Int) | none => s.temperature
    power_on_hours := match poh with | some n => (n : Int) | none => s.power_on_hours
    power_cycles := match pc with | some n => (n : Int) | none => s.power_cycles }

/-- `SmartParser._parse_attributes`, lines 273-327: the tabular listing,
falling back to the NVMe narrative layout when no attribute parsed. -/
def parse_attributes (s : SmartData) (output : String) : SmartData :=
  let attrs := (output.splitOn "\n").foldl (fun acc line =>
    match parse_attr_line line with
    | some (i, nm, v, w, th, raw) =>
      let info := ((SMART_ATTRIBUTES.find? (fun p => p.1 == i)).map (fun p => p.2)).getD (nm, nm)
      attrsInsert acc i
        { id := i, name := info.1, description := info.2,
          value := (v : Int), worst := (w : Int), threshold := (th : Int),
          raw_value := (raw : Int), status := attr_status i raw v th }
    | none => acc) s.attributes
  let s1 := { s with attributes := attrs }
  if attrs.isEmpty then parse_nvme_attributes s1 output else s1

/-- Raw value of an attribute when it lies in the plausible range (0,100),
as the temperature cascade checks. -/
def plausibleRaw (a : Option SmartAttribute) : Option Int :=
  match a with
  | some attr => if 0 < attr.raw_value ∧ attr.raw_value < 100 then some attr.raw_value else none
  | none => none

/-- A scanned number in the plausible range (0,100). -/
def plausibleNat (n : Option Nat) : Option Int :=
  match n with
  | some m => if 0 < (m : Int) ∧ (m : Int) < 100 then some (m : Int) else none
  | none => none

/-- `SmartParser._extract_metrics`, lines 347-395: the temperature cascade
(attribute 194, attribute 190, a labelled `Temperature:` line, any
`temperature` keyword followed by a number), then hours, cycles and the
three sector counts. -/
def extract_metrics (s : SmartData) (output : String) : SmartData :=
  let truthyTemp := match s.temperature with | some t => decide (t ≠ 0) | none => false
  let low := (strLower output).data
  let temperature :=
    if truthyTemp then s.temperature
    else
      match (((plausibleRaw (s.get_attr 194)).orElse
          (fun _ => plausibleRaw (s.get_attr 190))).orElse
          (fun _ => plausibleNat (scanAfter low "temperature:".data numAfterWs0Digits))).orElse
          (fun _ => plausibleNat (scanAfter low "temperature".data numAfterColonSpace)) with
      | some t => some t
      | none => s.temperature
  let power_on_hours :=
    if s.power_on_hours ≠ 0 then s.power_on_hours
    else
      match s.get_attr 9 with
      | some a => a.raw_value
      | none => s.power_on_hours
  let power_cycles :=
    if s.power_cycles ≠ 0 then s.power_cycles
    else
      match s.get_attr 12 with
      | some a => a.raw_value
      | none => s.power_cycles
  { s with
    temperature := temperature
    power_on_hours := power_on_hours
    power_cycles := power_cycles
    reallocated_sectors := s.get_attr_raw 5 0
    pending_sectors := s.get_attr_raw 197 0
    uncorrectable_sectors := s.get_attr_raw 198 0 }

/-- `SmartParser.SMART_DRIVERS`, line 182: the fixed driver-hint order. -/
def SMART_DRIVERS : List String := ["", "sat", "scsi", "ata", "usbjmicron", "nvme"]

/-- The acceptance test of the driver loop, lines 205-207: non-empty
stdout with a SMART/Model marker and no `Unknown USB bridge` marker. -/
def acceptable_output (stdout : String) : Bool :=
  !(stdout == "") && (containsSub stdout "SMART" || containsSub stdout "Model") &&
    !(containsSub stdout "Unknown USB bridge")

/-- The driver loop of `SmartParser.parse`, lines 189-220: `responses`
pairs with `SMART_DRIVERS` in order (`none` = timeout or spawn failure);
the first accepted response wins, with its driver hint. -/
def select_output (responses : List (Option String)) : Option (String × String) :=
  (SMART_DRIVERS.zip responses).findSome? (fun p =>
    match p.2 with
    | some out => if acceptable_output out then some (p.1, out) else none
    | none => none)

/-- Lines 222-229 of `SmartParser.parse`: build the snapshot from the one
accepted output. -/
def populate (device driver output : String) : SmartData :=
  let s0 := { SmartData.empty device with raw_output := output, driver := driver }
  extract_metrics (parse_attributes (parse_smart_status (parse_device_info s0 output) output)
    output) output

/-- `SmartParser.parse`, lines 184-231, over the tool's responses. -/
def parse (device : String) (responses : List (Option String)) : SmartData :=
  match select_output responses with
  | none => SmartData.empty device
  | some (driver, out) => populate device driver out

end SmartParser

namespace HealthScore

open SmartParser

/-- `HealthLevel` enum, `src/core/health_score.py` lines 14-21. -/
inductive HealthLevel where
  | EXCELLENT
  | GOOD
  | FAIR
  | POOR
  | CRITICAL
  | UNKNOWN
deriving DecidableEq, Repr

/-- `HealthReport` dataclass, lines 24-34. -/
structure HealthReport where
  score : Int
  level : HealthLevel
  label : String
  color : String
  icon : String
  factors : List (String × Int × String)
  recommendations : List String
deriving DecidableEq, Repr

/-- One vendor's row of `VENDOR_WEIGHTS` (lines 38-88), by attribute. -/
structure VendorWeights where
  reallocated_sector_ct : Nat
  current_pending_sector : Nat
  offline_uncorrectable : Nat
  reallocated_event_count : Nat
  udma_crc_error_count : Nat
  power_on_hours : Nat
deriving DecidableEq, Repr

/-- `VENDOR_WEIGHTS`, lines 38-88, without the `default` row. -/
def VENDOR_WEIGHTS : List (String × VendorWeights) :=
  [("Western Digital", ⟨35, 35, 40, 20, 15, 10⟩),
   ("Seagate", ⟨30, 40, 40, 25, 20, 12⟩),
   ("Toshiba", ⟨35, 35, 40, 20, 15, 10⟩),
   ("Samsung", ⟨30, 35, 35, 20, 15, 8⟩),
   ("HGST", ⟨35, 35, 40, 20, 15, 10⟩)]

/-- The `default` row of `VENDOR_WEIGHTS`, lines 80-87. -/
def default_weights : VendorWeights := ⟨35, 35, 40, 20, 15, 10⟩

/-- `VENDOR_WEIGHTS.get(smart.vendor, VENDOR_WEIGHTS["default"])`, line 121. -/
def weights_for (vendor : String) : VendorWeights :=
  ((VENDOR_WEIGHTS.find? (fun p => p.1 == vendor)).map (fun p => p.2)).getD default_weights

/-- `POH_THRESHOLDS`, lines 91-95. -/
def POH_WARNING : Int := 25000

/-- `POH_THRESHOLDS["concern"]`. -/
def POH_CONCERN : Int := 40000

/-- `POH_THRESHOLDS["critical"]`. -/
def POH_CRITICAL : Int := 60000

/-- `TEMP_THRESHOLDS`, lines 98-103. -/
def TEMP_GOOD : Int := 45

/-- `TEMP_THRESHOLDS["warm"]`. -/
def TEMP_WARM : Int := 55

/-- `TEMP_THRESHOLDS["hot"]`. -/
def TEMP_HOT : Int := 65

/-- One scoring section's contribution: (penalty, factors, recommendations). -/
abbrev Section := Int × List (String × Int × String) × List String

/-- Step 1 of `calculate_health`, lines 123-127: flat -50 when the overall
SMART health check failed, with the immediate-backup recommendation. -/
def health_pass_section (health_passed : Bool) : Section :=
  if health_passed then (0, [], [])
  else (50, [("SMART Health FALHOU", -50, "critical")],
    ["BACKUP IMEDIATO! Disco pode falhar a qualquer momento."])

/-- Step 2, lines 129-152: tiered reallocated-sector penalty.  Python's
`int(weight * 0.7)` and `int(weight * 0.3)` agree with the exact rational
floors for every weight of the table. -/
def reallocated_section (w : VendorWeights) (n : Int) : Section :=
  if 0 < n then
    let weight := w.reallocated_sector_ct
    if 100 < n then
      ((weight : Int), [("Setores realocados: " ++ toString n, -(weight : Int), "critical")],
        ["Alto número de setores realocados (" ++ toString n ++ "). Considere substituir o disco."])
    else if 10 < n then
      let p : Int := ((weight * 7) / 10 : Nat)
      (p, [("Setores realocados: " ++ toString n, -p, "warning")],
        ["Setores realocados detectados (" ++ toString n ++ "). Monitore regularmente."])
    else
      let p : Int := ((weight * 3) / 10 : Nat)
      (p, [("Setores realocados: " ++ toString n, -p, "warning")], [])
  else (0, [], [])

/-- Step 3, lines 154-170: tiered pending-sector penalty. -/
def pending_section (w : VendorWeights) (n : Int) : Section :=
  if 0 < n then
    let weight := w.current_pending_sector
    if 10 < n then
      ((weight : Int), [("Setores pendentes: " ++ toString n, -(weight : Int), "critical")],
        ["ALERTA: " ++ toString n ++ " setores pendentes! Execute badblocks ou SMART extended test."])
    else
      let p : Int := ((weight * 5) / 10 : Nat)
      (p, [("Setores pendentes: " ++ toString n, -p, "warning")], [])
  else (0, [], [])

/-- Step 4, lines 172-189: uncorrectable-sector penalty, scaled as
`min(weight, weight * (count / 5))` then truncated (the count is positive
here, so `int(...)` is the floor). -/
def uncorrectable_section (w : VendorWeights) (n : Int) : Section :=
  if 0 < n then
    let weight := w.offline_uncorrectable
    let p : Int := (min (weight : Rat) ((weight : Rat) * ((n : Rat) / 5))).floor
    let st := if 5 < n then "critical" else "warning"
    (p, [("Setores incorrigíveis: " ++ toString n, -p, st)],
      ["Setores incorrigíveis indicam dano permanente. Faça backup!"])
  else (0, [], [])

/-- Step 5, lines 191-214: power-on-hours thresholds.  Python's `{poh:,}`
digit grouping is rendered without the separators. -/
def poh_section (w : VendorWeights) (poh : Int) : Section :=
  if 0 < poh then
    let weight := w.power_on_hours
    let tier : Int × String × List String :=
      if POH_CRITICAL < poh then
        ((weight : Int), "warning",
          ["Disco com " ++ toString poh ++ " horas de uso. Considere substituição preventiva."])
      else if POH_CONCERN < poh then (((weight * 6) / 10 : Nat), "info", [])
      else if POH_WARNING < poh then (((weight * 3) / 10 : Nat), "info", [])
      else (0, "good", [])
    if 0 < tier.1 then
      (tier.1, [("Horas de uso: " ++ toString poh ++ "h", -tier.1, tier.2.1)], tier.2.2)
    else (0, [], tier.2.2)
  else (0, [], [])

/-- Step 6, lines 216-241: temperature thresholds.  `if smart.temperature:`
is false for `None` and for `0`. -/
def temp_section (t : Option Int) : Section :=
  match t with
  | none => (0, [], [])
  | some temp =>
    if temp = 0 then (0, [], [])
    else
      let tier : Int × String × List String :=
        if TEMP_HOT < temp then
          (15, "critical",
            ["Temperatura CRÍTICA: " ++ toString temp ++ "°C! Melhore a ventilação imediatamente."])
        else if TEMP_WARM < temp then
          (10, "warning", ["Temperatura alta: " ++ toString temp ++ "°C. Verifique ventilação."])
        else if TEMP_GOOD < temp then (5, "info", [])
        else (0, "good", [])
      if 0 < tier.1 then
        (tier.1, [("Temperatura: " ++ toString temp ++ "°C", -tier.1, tier.2.1)], tier.2.2)
      else (0, [], tier.2.2)

/-- Step 7, lines 243-260: UDMA CRC error count from attribute 199. -/
def crc_section (w : VendorWeights) (a : Option SmartAttribute) : Section :=
  match a with
  | none => (0, [], [])
  | some attr =>
    if 0 < attr.raw_value then
      let weight := w.udma_crc_error_count
      if 100 < attr.raw_value then
        ((weight : Int), [("Erros CRC: " ++ toString attr.raw_value, -(weight : Int), "warning")],
          ["Muitos erros CRC (" ++ toString attr.raw_value ++ "). Verifique cabo SATA/USB."])
      else
        let p : Int := ((weight * 5) / 10 : Nat)
        (p, [("Erros CRC: " ++ toString attr.raw_value, -p, "info")], [])
    else (0, [], [])

/-- `_get_level_info`, lines 283-294. -/
def get_level_info (score : Int) : HealthLevel × String × String × String :=
  if 90 ≤ score then (HealthLevel.EXCELLENT, "Excelente", "#2ed573", "🟢")
  else if 75 ≤ score then (HealthLevel.GOOD, "Bom", "#2ed573", "🟢")
  else if 50 ≤ score then (HealthLevel.FAIR, "Atenção", "#ffa502", "🟡")
  else if 25 ≤ score then (HealthLevel.POOR, "Ruim", "#ff6b6b", "🟠")
  else (HealthLevel.CRITICAL, "Crítico", "#ff4757", "🔴")

/-- `calculate_health`, lines 106-280: start at 100, apply the seven
penalty sections in order, clamp to [0,100], map to a level, and fall back
to the generic recommendation when none was produced. -/
def calculate_health (smart : SmartData) : HealthReport :=
  let w := weights_for smart.vendor
  let s1 := health_pass_section smart.health_passed
  let s2 := reallocated_section w smart.reallocated_sectors
  let s3 := pending_section w smart.pending_sectors
  let s4 := uncorrectable_section w smart.uncorrectable_sectors
  let s5 := poh_section w smart.power_on_hours
  let s6 := temp_section smart.temperature
  let s7 := crc_section w (smart.get_attr 199)
  let raw : Int := 100 - s1.1 - s2.1 - s3.1 - s4.1 - s5.1 - s6.1 - s7.1
  let score := max 0 (min 100 raw)
  let info := get_level_info score
  let recs := s1.2.2 ++ s2.2.2 ++ s3.2.2 ++ s4.2.2 ++ s5.2.2 ++ s6.2.2 ++ s7.2.2
  { score := score
    level := info.1
    label := info.2.1
    color := info.2.2.1
    icon := info.2.2.2
    factors := s1.2.1 ++ s2.2.1 ++ s3.2.1 ++ s4.2.1 ++ s5.2.1 ++ s6.2.1 ++ s7.2.1
    recommendations :=
      if recs = [] then ["Disco em bom estado. Continue monitorando periodicamente."] else recs }

/-- `health_status`, lines 297-300. -/
def health_status (score : Int) : String :=
  let info := get_level_info score
  info.2.2.2 ++ " " ++ info.2.1

/-- `get_health_summary`, lines 303-306. -/
def get_health_summary (smart : SmartData) : String :=
  let report := calculate_health smart
  report.icon ++ " " ++ report.label ++ " (" ++ toString report.score ++ "%)"

end HealthScore

namespace TestRunner

open SmartParser

/-- `TestPhase` enum, `src/core/test_runner.py` lines 41-45. -/
inductive TestPhase where
  | PHASE_1_QUICK
  | PHASE_2_SIMPLE
  | PHASE_3_INTENSIVE
  | PHASE_4_EXTENDED
deriving DecidableEq, Repr

/-- `TestStatus` enum, lines 48-54. -/
inductive TestStatus where
  | PENDING
  | RUNNING
  | COMPLETED
  | FAILED
  | CANCELLED
  | SKIPPED
deriving DecidableEq, Repr

/-- `TestResult` dataclass, lines 68-77.  Wall-clock `duration_seconds`,
the final `progress` percentage and the `data: Any` payload carry no claim
content and are not modelled. -/
structure TestResult where
  test_id : String
  status : TestStatus
  message : String
  details : String
deriving DecidableEq, Repr

/-- `TestDefinition` dataclass, lines 57-65. -/
structure TestDefinition where
  id : String
  name : String
  description : String
  phase : TestPhase
  estimated_time : String
  is_destructive : Bool
  requires_unmount : Bool
deriving DecidableEq, Repr

/-- `AVAILABLE_TESTS` registry, lines 96-181 (insertion order). -/
def AVAILABLE_TESTS : List TestDefinition :=
  [⟨"smart_info", "Informações SMART", "Coleta informações básicas e status SMART",
      TestPhase.PHASE_1_QUICK, "2s", false, false⟩,
   ⟨"health_check", "Verificação de Saúde", "Calcula pontuação de saúde baseada em SMART",
      TestPhase.PHASE_1_QUICK, "2s", false, false⟩,
   ⟨"fake_quick", "Detecção Rápida de Fake", "Verifica HPA e consistência de capacidade",
      TestPhase.PHASE_1_QUICK, "5s", false, false⟩,
   ⟨"smart_short", "SMART Short Test", "Teste curto SMART (~2 minutos)",
      TestPhase.PHASE_2_SIMPLE, "2min", false, false⟩,
   ⟨"read_sample", "Leitura Amostral", "Lê amostras aleatórias do disco",
      TestPhase.PHASE_2_SIMPLE, "1min", false, false⟩,
   ⟨"speed_test", "Teste de Velocidade", "Mede velocidade de leitura sequencial",
      TestPhase.PHASE_2_SIMPLE, "30s", false, false⟩,
   ⟨"f3probe", "f3probe (Fake Detection)", "Teste definitivo de disco falso",
      TestPhase.PHASE_3_INTENSIVE, "5min", true, true⟩,
   ⟨"smart_extended", "SMART Extended Test", "Teste completo SMART (pode levar horas)",
      TestPhase.PHASE_4_EXTENDED, "1-4h", false, false⟩,
   ⟨"badblocks_ro", "Badblocks (Somente Leitura)", "Verifica setores defeituosos sem destruir dados",
      TestPhase.PHASE_4_EXTENDED, "2-8h", false, true⟩,
   ⟨"badblocks_rw", "Badblocks (Leitura/Escrita)", "Teste read-write preservando dados (lento)",
      TestPhase.PHASE_4_EXTENDED, "4-16h", false, true⟩,
   ⟨"badblocks_wipe", "Badblocks Destrutivo (-w)", "Teste completo com escrita (APAGA DADOS)",
      TestPhase.PHASE_4_EXTENDED, "4-24h", true, true⟩]

/-- `_test_smart_info`, lines 246-259: parses SMART (never raises) and
always completes. -/
def test_smart_info (device : String) (responses : List (Option String)) : TestResult :=
  let _smart := SmartParser.parse device responses
  { test_id := "smart_info", status := TestStatus.COMPLETED,
    message := "Informações coletadas com sucesso", details := "" }

/-- `_test_health_check`, lines 262-276. -/
def test_health_check (device : String) (responses : List (Option String)) : TestResult :=
  let report := HealthScore.calculate_health (SmartParser.parse device responses)
  { test_id := "health_check", status := TestStatus.COMPLETED,
    message := "Saúde: " ++ report.label ++ " (" ++ toString report.score ++ "%)", details := "" }

/-- `_test_fake_quick`, lines 279-292.  `cap` is the capacity information
`_collect_capacities` gathered from the tools. -/
def test_fake_quick (device : String) (cap : FakeDetector.CapacityInfo) : TestResult :=
  let report := FakeDetector.quick_check device cap
  { test_id := "fake_quick", status := TestStatus.COMPLETED,
    message := report.summary, details := "" }

/-- Observations for one `_test_smart_short` run: per driver hint the
combined stdout+stderr and the return code (`none` = timeout or spawn
failure), and per poll iteration the cancellation flag and the self-test
log output (`none` = the check call raised and was swallowed). -/
structure SmartShortWorld where
  attempts : List (Option (String × Int))
  polls : List (Bool × Option String)
deriving Repr

/-- The driver loop of `_test_smart_short`, lines 303-328: `output` keeps
the last returned combined output (initially empty, unchanged on a raised
attempt); success on a begun-test marker, or on a clean return code
without the USB-bridge marker. -/
def smart_short_try : List (Option (String × Int)) → String → String × Bool
  | [], out => (out, false)
  | none :: rest, out => smart_short_try rest out
  | some (o, rc) :: rest, _out =>
    if containsSub o "Testing has begun" || containsSub o "Self-test routine" then (o, true)
    else if !(containsSub o "Unknown USB bridge") && rc == 0 then (o, true)
    else smart_short_try rest o

/-- The poll loop of `_test_smart_short`, lines 362-414, over the bounded
list of poll observations (the 10-second / 180-second budget); exhausting
the budget reports the completed-but-unconfirmed result. -/
def smart_short_poll : List (Bool × Option String) → TestResult
  | [] =>
    { test_id := "smart_short", status := TestStatus.COMPLETED,
      message := "Teste iniciado (verifique resultados depois)", details := "" }
  | (cancelled, log) :: rest =>
    if cancelled then
      { test_id := "smart_short", status := TestStatus.CANCELLED,
        message := "Cancelado pelo usuário", details := "" }
    else
      match log with
      | some out =>
        if containsSub out "Completed without error" then
          { test_id := "smart_short", status := TestStatus.COMPLETED,
            message := "✓ SMART Short Test passou", details := out }
        else if containsSub (strLower out) "read failure" || containsSub (strLower out) "failed" then
          { test_id := "smart_short", status := TestStatus.FAILED,
            message := "✗ SMART Short Test detectou problemas", details := out }
        else smart_short_poll rest
      | none => smart_short_poll rest

/-- `_test_smart_short`, lines 295-414.  In the two no-success branches at
lines 335-342 and 345-352 the source builds the SKIPPED result with
`data=parsed` — but `parsed` is bound nowhere in this function, so
evaluating the arguments raises `NameError: name 'parsed' is not defined`
before the result exists; those branches are therefore embedded as the
exception outcome (the branch's message and extracted percentage are
discarded by the exception). -/
def test_smart_short (w : SmartShortWorld) : Except String TestResult :=
  let tried := smart_short_try (w.attempts.take 4) ""
  if !tried.2 then
    if containsSub (strLower tried.1) "aborting current test" ||
        containsSub (strLower tried.1) "already in progress" then
      Except.error "name 'parsed' is not defined"
    else if containsSub tried.1 "Invalid" || containsSub (strLower tried.1) "not supported" then
      Except.error "name 'parsed' is not defined"
    else
      Except.ok { test_id := "smart_short", status := TestStatus.FAILED,
                  message := "Falha ao iniciar teste", details := tried.1 }
  else
    Except.ok (smart_short_poll w.polls)

/-- Observations for `_test_read_sample`: the size query's success, the
parse of its stdout (`Except.error` = the `int(...)` call raised), and the
cancellation/dd-failure flags of the ten sample iterations. -/
structure ReadSampleWorld where
  blockdev_ok : Bool
  size_parse : Except String Int
  cancels : List Bool
  dd_errors : List Bool
deriving Repr

/-- The sampling loop of `_test_read_sample`, lines 445-482: cancellation
is checked at each iteration head; a raised `dd` increments the error
counter; any error makes the test FAILED, else COMPLETED. -/
def read_sample_loop : Nat → List Bool → List Bool → Nat → TestResult
  | 0, _, _, errors =>
    if 0 < errors then
      { test_id := "read_sample", status := TestStatus.FAILED,
        message := "✗ " ++ toString errors ++ " erros em 10 amostras", details := "" }
    else
      { test_id := "read_sample", status := TestStatus.COMPLETED,
        message := "✓ Todas as 10 amostras lidas com sucesso", details := "" }
  | n + 1, cancels, dds, errors =>
    if cancels.headD false then
      { test_id := "read_sample", status := TestStatus.CANCELLED,
        message := "Cancelado", details := "" }
    else
      read_sample_loop n cancels.tail dds.tail (errors + (if dds.headD false then 1 else 0))

/-- `_test_read_sample`, lines 417-490.  The randomized offsets do not
influence the status and are not modelled; every exception inside the body
is caught by the function's own handler (line 484). -/
def test_read_sample (w : ReadSampleWorld) : TestResult :=
  if !w.blockdev_ok then
    { test_id := "read_sample", status := TestStatus.SKIPPED,
      message := "Não foi possível obter tamanho do disco", details := "" }
  else
    match w.size_parse with
    | Except.error e =>
      { test_id := "read_sample", status := TestStatus.FAILED,
        message := "Erro: " ++ e, details := "" }
    | Except.ok _size => read_sample_loop 10 w.cancels w.dd_errors 0

/-- Observations for `_test_speed`: whether `dd` exceeded the 60-second
timeout, and its stderr. -/
structure SpeedWorld where
  timeout : Bool
  stderr : String
deriving Repr

/-- Whether the throughput pattern `([\d.]+)\s*(MB|GB)/s` matches at the
head of `cs`. -/
def speed_match_at (cs : List Char) : Bool :=
  let isRun := fun (c : Char) => c.isDigit || c == '.'
  if (cs.takeWhile isRun).isEmpty then false
  else
    let rest := (cs.dropWhile isRun).dropWhile isSpaceChar
    "MB/s".data.isPrefixOf rest || "GB/s".data.isPrefixOf rest

/-- `re.search` for the throughput pattern over the tool's stderr. -/
def find_speed : List Char → Bool
  | [] => false
  | c :: rest => speed_match_at (c :: rest) || find_speed rest

/-- `_test_speed`, lines 493-563.  When the throughput pattern matches,
the source (line 538) builds the COMPLETED result with `data=parsed`, an
unbound name; the NameError is caught by the function's own
`except Exception` handler (line 557) and surfaces as a FAILED result
carrying the exception text. -/
def test_speed (w : SpeedWorld) : TestResult :=
  if w.timeout then
    { test_id := "speed_test", status := TestStatus.FAILED,
      message := "Timeout - disco muito lento", details := "" }
  else if find_speed w.stderr.data then
    { test_id := "speed_test", status := TestStatus.FAILED,
      message := "Erro: name 'parsed' is not defined", details := "" }
  else
    { test_id := "speed_test", status := TestStatus.COMPLETED,
      message := "Teste concluído", details := w.stderr }

/-- Observations for `_test_f3probe`: tool presence, a spawn failure, and
whether cancellation was observed while the probe was live. -/
structure F3probeWorld where
  installed : Bool
  spawn_error : Option String
  cancelled : Bool
deriving Repr

/-- `_test_f3probe`, lines 566-659.  At line 662 of the source,
`_parse_f3probe_output` (with its `@staticmethod` line) is dedented to
module level, which ends the `class TestRunner` body; the natural-exit
path at line 615 therefore raises AttributeError on
`cls._parse_f3probe_output`, caught by the function's own handler at line
653 and surfaced as a FAILED result with the exception text. -/
def test_f3probe (w : F3probeWorld) : TestResult :=
  if !w.installed then
    { test_id := "f3probe", status := TestStatus.SKIPPED,
      message := "f3probe não instalado", details := "" }
  else
    match w.spawn_error with
    | some e =>
      { test_id := "f3probe", status := TestStatus.FAILED, message := "Erro: " ++ e, details := "" }
    | none =>
      if w.cancelled then
        { test_id := "f3probe", status := TestStatus.CANCELLED,
          message := "Cancelado", details := "" }
      else
        { test_id := "f3probe", status := TestStatus.FAILED,
          message := "Erro: type object 'TestRunner' has no attribute '_parse_f3probe_output'",
          details := "" }

/-- `_is_mounted`, lines 859-866 (dead code, see `run_badblocks_source`):
strip trailing digits and `p` from the device path and test whether any
live mount-table entry starts with that base. -/
def is_mounted (partitions : List String) (device : String) : Bool :=
  let base_dev := rstripSet device "0123456789p".data
  partitions.any (fun part => base_dev.data.isPrefixOf part.data)

/-- Observations for the badblocks body: tool presence, the live mount
table, a spawn failure, cancellation while the scan was live, the counted
bad blocks, and the joined stdout lines. -/
structure BadblocksWorld where
  installed : Bool
  partitions : List String
  spawn_error : Option String
  cancelled : Bool
  bad_blocks : Nat
  output : String
deriving Repr

/-- The body of `_run_badblocks` as written, lines 724-857.  Because of
the dedent at line 662 this code is a dead nested function inside the
module-level `_parse_f3probe_output` and is unreachable from the
dispatcher; it is embedded to state what its mount guard does.  The `Bool`
component records whether the scan subprocess was spawned. -/
def run_badblocks_source (w : BadblocksWorld) (device mode : String) : TestResult × Bool :=
  let test_id := "badblocks_" ++ mode
  if !w.installed then
    ({ test_id := test_id, status := TestStatus.SKIPPED,
       message := "badblocks não encontrado", details := "" }, false)
  else if is_mounted w.partitions device then
    ({ test_id := test_id, status := TestStatus.FAILED,
       message := "Disco montado! Desmonte antes de testar.",
       details := "Use: sudo umount " ++ device ++ "*" }, false)
  else
    match w.spawn_error with
    | some e =>
      ({ test_id := test_id, status := TestStatus.FAILED,
         message := "Erro: " ++ e, details := "" }, false)
    | none =>
      if w.cancelled then
        ({ test_id := test_id, status := TestStatus.CANCELLED,
           message := "Cancelado", details := "" }, true)
      else if 0 < w.bad_blocks then
        ({ test_id := test_id, status := TestStatus.FAILED,
           message := "✗ " ++ toString w.bad_blocks ++ " blocos defeituosos!",
           details := w.output }, true)
      else
        ({ test_id := test_id, status := TestStatus.COMPLETED,
           message := "✓ Nenhum bloco defeituoso", details := w.output }, true)

/-- The external observations one `_run_single_test` call can make, per
test kind. -/
structure TestEnv where
  device : String
  smart_responses : List (Option String)
  cap : FakeDetector.CapacityInfo
  short : SmartShortWorld
  sample : ReadSampleWorld
  speed : SpeedWorld
  f3 : F3probeWorld
deriving Repr

/-- The dispatch inside the `try` of `_run_single_test`, lines 216-235.
An `Except.error` is a Python exception escaping the dispatched body: the
NameError of the smart-short branches, and — because the class body ends
at the line-662 dedent, leaving no `_run_badblocks` attribute — the
AttributeError raised by the badblocks dispatch at line 233. -/
def dispatch_body (env : TestEnv) (test_id : String) : Except String TestResult :=
  if test_id == "smart_info" then Except.ok (test_smart_info env.device env.smart_responses)
  else if test_id == "health_check" then
    Except.ok (test_health_check env.device env.smart_responses)
  else if test_id == "fake_quick" then Except.ok (test_fake_quick env.device env.cap)
  else if test_id == "smart_short" then test_smart_short env.short
  else if test_id == "read_sample" then Except.ok (test_read_sample env.sample)
  else if test_id == "speed_test" then Except.ok (test_speed env.speed)
  else if test_id == "f3probe" then Except.ok (test_f3probe env.f3)
  else if test_id == "badblocks_ro" || test_id == "badblocks_rw" ||
      test_id == "badblocks_wipe" then
    Except.error "type object 'TestRunner' has no attribute '_run_badblocks'"
  else
    Except.ok { test_id := test_id, status := TestStatus.SKIPPED,
                message := "Não implementado", details := "" }

/-- `_run_single_test`, lines 208-243: unknown ids are SKIPPED before the
`try`; any exception from the dispatched body is converted at this
boundary into a FAILED result carrying the exception text. -/
def run_single_test (env : TestEnv) (test_id : String) : TestResult :=
  if (AVAILABLE_TESTS.find? (fun td => td.id == test_id)).isNone then
    { test_id := test_id, status := TestStatus.SKIPPED,
      message := "Teste desconhecido", details := "" }
  else
    match dispatch_body env test_id with
    | Except.ok r => r
    | Except.error e =>
      { test_id := test_id, status := TestStatus.FAILED,
        message := "Erro: " ++ e, details := "" }

/-- The callback events `run_tests` delivers (callbacks modelled as
installed). -/
inductive Event where
  | progress (test_id : String) (percent : Nat) (message : String)
  | test_complete (result : TestResult)
  | session_complete
deriving DecidableEq, Repr

/-- Python dict assignment `session.results[test_id] = result`: replace
the value at the existing binding (keys are unique, insertion order kept)
or append a new binding. -/
def upsert : List (String × TestResult) → String → TestResult → List (String × TestResult)
  | [], k, v => [(k, v)]
  | p :: rest, k, v => if p.1 == k then (k, v) :: rest else p :: upsert rest k v

/-- Lookup in the session's results mapping (keys unique). -/
def lookupResult : List (String × TestResult) → String → Option TestResult
  | [], _ => none
  | p :: rest, k => if p.1 == k then some p.2 else lookupResult rest k

/-- The loop of `TestRunner.run_tests`, lines 188-200.  `envs i` gives the
observations of the i-th executed test; `flag_after i` the value of the
asynchronously-set `is_cancelled` flag as observed at the loop-head check
after the i-th executed test (the initial observation is the `cancelled`
argument below). -/
def run_tests_go (envs : Nat → TestEnv) (flag_after : Nat → Bool) :
    List TestDefinition → Nat → Bool → List (String × TestResult) →
    List (String × TestResult) × List Event
  | [], _, _, acc => (acc, [])
  | td :: rest, i, cancelled, acc =>
    if cancelled then (acc, [])
    else
      let r := run_single_test (envs i) td.id
      let next := run_tests_go envs flag_after rest (i + 1) (flag_after i) (upsert acc td.id r)
      (next.1,
        Event.progress td.id 0 ("Iniciando " ++ td.name ++ "...") ::
          Event.test_complete r :: next.2)

/-- `TestRunner.run_tests`, lines 185-206: the loop over the ordered run
list (results start empty), then exactly one `on_session_complete`. -/
def run_tests (envs : Nat → TestEnv) (flag_after : Nat → Bool)
    (tests : List TestDefinition) (cancelled0 : Bool) :
    List (String × TestResult) × List Event :=
  let out := run_tests_go envs flag_after tests 0 cancelled0 []
  (out.1, out.2 ++ [Event.session_complete])

/-- The terminal per-test statuses of the orchestrator's state machine
(spec §4.4): everything but PENDING and RUNNING. -/
def isTerminal : TestStatus → Bool
  | TestStatus.PENDING => false
  | TestStatus.RUNNING => false
  | _ => true

end TestRunner

/-! Concrete instances used by the theorems below. -/

/-- Native 1000 sectors, current (`hdparm_max_sectors`) 900 sectors. -/
def cap_hpa_1000_900 : FakeDetector.CapacityInfo :=
  { FakeDetector.CapacityInfo.zero with hdparm_native_sectors := 1000, hdparm_max_sectors := 900 }

/-- Two sources at exactly 5.0 percent relative spread. -/
def cap_spread_exactly_5pct : FakeDetector.CapacityInfo :=
  { FakeDetector.CapacityInfo.zero with lsblk_bytes := 2000, fdisk_bytes := 1900 }

/-- Two sources at 5.01 percent relative spread. -/
def cap_spread_5point01pct : FakeDetector.CapacityInfo :=
  { FakeDetector.CapacityInfo.zero with lsblk_bytes := 10000, fdisk_bytes := 9499 }

/-- A destructive-probe sub-test that reported fake (FAILED). -/
def f3probe_failed_subtest : FakeDetector.FakeTestResult :=
  { name := "f3probe", result := FakeDetector.TestResult.FAILED,
    message := "Disco falso confirmado pelo f3probe", details := "", is_destructive := true }

/-- A report with passed and warned sub-tests next to the failed probe. -/
def report_with_f3probe_failed : FakeDetector.FakeDetectorReport :=
  { device := "/dev/sdz"
    status := FakeDetector.FakeStatus.UNTESTED
    confidence := 0
    capacity := FakeDetector.CapacityInfo.zero
    tests := [{ name := "HPA", result := FakeDetector.TestResult.WARNING,
                message := "", details := "", is_destructive := false },
              { name := "Capacidade", result := FakeDetector.TestResult.PASSED,
                message := "", details := "", is_destructive := false },
              f3probe_failed_subtest]
    summary := ""
    recommendations := [] }

/-- A snapshot whose overall SMART health check failed, with every other
metric nominal. -/
def snapshot_failed_health : SmartParser.SmartData :=
  { SmartParser.SmartData.empty "/dev/sda" with health_passed := false }

/-- A transport-error response from the SMART tool. -/
def usb_bridge_response : String :=
  "/dev/sdb: Unknown USB bridge [0x152d:0x2329]\nPlease specify device type with the -d option."

/-- A valid SMART response carrying a Model line and no error marker. -/
def third_driver_response : String :=
  "Device Model: WDC WD10EZEX-00BN5A0\nSerial Number: WD-WCC3F1234567\n" ++
  "SMART overall-health self-assessment test result: PASSED"

/-- A smart-short environment in which every driver hint answers that a
self-test is already in progress (non-zero return code). -/
def env_in_progress : TestRunner.TestEnv :=
  { device := "/dev/sdx"
    smart_responses := []
    cap := FakeDetector.CapacityInfo.zero
    short := { attempts := List.replicate 4 (some ("Cannot start: a self-test is already in progress (90% remaining)", 1))
               polls := [] }
    sample := { blockdev_ok := true
                size_parse := Except.ok 500107862016
                cancels := []
                dd_errors := [] }
    speed := { timeout := false, stderr := "" }
    f3 := { installed := true, spawn_error := none, cancelled := false } }

/-- An environment whose read-sample test observes cancellation at its
first iteration (so that test returns CANCELLED). -/
def env_cancelled_read : TestRunner.TestEnv :=
  { device := "/dev/sdx"
    smart_responses := [some third_driver_response]
    cap := FakeDetector.CapacityInfo.zero
    short := { attempts := [], polls := [] }
    sample := { blockdev_ok := true
                size_parse := Except.ok 500107862016
                cancels := [true]
                dd_errors := [] }
    speed := { timeout := false, stderr := "" }
    f3 := { installed := true, spawn_error := none, cancelled := false } }

/-- The `smart_info` registry entry. -/
def td_smart_info : TestRunner.TestDefinition :=
  ⟨"smart_info", "Informações SMART", "Coleta informações básicas e status SMART",
    TestRunner.TestPhase.PHASE_1_QUICK, "2s", false, false⟩

/-- The `read_sample` registry entry. -/
def td_read_sample : TestRunner.TestDefinition :=
  ⟨"read_sample", "Leitura Amostral", "Lê amostras aleatórias do disco",
    TestRunner.TestPhase.PHASE_2_SIMPLE, "1min", false, false⟩

/-- The `speed_test` registry entry. -/
def td_speed_test : TestRunner.TestDefinition :=
  ⟨"speed_test", "Teste de Velocidade", "Mede velocidade de leitura sequencial",
    TestRunner.TestPhase.PHASE_2_SIMPLE, "30s", false, false⟩

/-- A cancel-flag history: false at the first loop-head check after test 0,
true from the check after test 1 on. -/
def flags_cancel_after_second : Nat → Bool := fun i => decide (0 < i)

/-- A badblocks world whose device has live mount-table entries. -/
def mounted_badblocks_world : TestRunner.BadblocksWorld :=
  { installed := true, partitions := ["/dev/sda1", "/dev/sda2"], spawn_error := none,
    cancelled := false, bad_blocks := 0, output := "" }

/-!
## Theorems

Helper lemmas first, then one theorem per claim (C1-C10), each with its
witness where the statement carries hypotheses.
-/

/-- An element is bounded by a `foldl max` that starts from it. -/
theorem le_foldl_max_init (l : List Int) (a : Int) : a ≤ l.foldl max a := by
  induction l generalizing a with
  | nil => exact le_refl a
  | cons x xs ih => exact le_trans (le_max_left a x) (ih (max a x))

/-- C4: for a `CapacityInfo` with native sector count 1000 and current
sector count 900 the code does report a hidden area, but computes its size
as `(current − native) × 512 = −51200` bytes — not the `100 × 512 = 51200`
bytes the specification states (the subtraction's operands are swapped). -/
theorem hpa_size_sign_bug :
    cap_hpa_1000_900.has_hpa = true ∧
    cap_hpa_1000_900.get_hpa_size_bytes = -51200 ∧
    cap_hpa_1000_900.get_hpa_size_bytes ≠ 51200 := by
  decide

/-- A mismatch is flagged exactly when at least two sources are positive
and the relative spread strictly exceeds the tolerance. -/
theorem mismatch_iff (c : FakeDetector.CapacityInfo) :
    c.has_capacity_mismatch 5 = true ↔ 2 ≤ c.sources.length ∧ 5 < c.spread_pct := by
  unfold FakeDetector.CapacityInfo.has_capacity_mismatch FakeDetector.CapacityInfo.spread_pct
  cases h : c.sources with
  | nil => simp [h]
  | cons v vs =>
    have hv : (0 : Int) < v := by
      have hm : v ∈ c.sources := by rw [h]; exact List.mem_cons_self v vs
      simp [FakeDetector.CapacityInfo.sources, List.mem_filter] at hm
      exact hm.2
    have hmax : (0 : Int) < vs.foldl max v := lt_of_lt_of_le hv (le_foldl_max_init vs v)
    cases vs with
    | nil => simp [h]
    | cons w ws =>
      simp only [h]
      simp [hmax.ne, decide_eq_true_iff]
      intro _
      simpa using hmax.ne'

/-- C9: a cross-source capacity mismatch is flagged exactly when at least
two byte-size sources are positive and the relative spread
`(max − min)/max` strictly exceeds the 5 percent default tolerance; at
exactly 5.0 percent no mismatch is flagged, at 5.01 percent it is. -/
theorem capacity_mismatch_strict_tolerance :
    (∀ c : FakeDetector.CapacityInfo,
      c.has_capacity_mismatch 5 = true ↔ 2 ≤ c.sources.length ∧ 5 < c.spread_pct) ∧
    cap_spread_exactly_5pct.has_capacity_mismatch 5 = false ∧
    cap_spread_5point01pct.has_capacity_mismatch 5 = true := by
  refine ⟨mismatch_iff, ?_, ?_⟩
  · apply Bool.eq_false_iff.mpr
    intro htrue
    have h := (mismatch_iff _).mp htrue
    have hs : cap_spread_exactly_5pct.spread_pct = 5 := by
      norm_num [FakeDetector.CapacityInfo.spread_pct, FakeDetector.CapacityInfo.sources,
        cap_spread_exactly_5pct, FakeDetector.CapacityInfo.zero, List.filter, List.foldl,
        max_def, min_def]
    rw [hs] at h
    exact absurd h.2 (lt_irrefl 5)
  · apply (mismatch_iff _).mpr
    constructor
    · norm_num [FakeDetector.CapacityInfo.sources, cap_spread_5point01pct,
        FakeDetector.CapacityInfo.zero, List.filter]
    · have hs : cap_spread_5point01pct.spread_pct = 501 / 100 := by
        norm_num [FakeDetector.CapacityInfo.spread_pct, FakeDetector.CapacityInfo.sources,
          cap_spread_5point01pct, FakeDetector.CapacityInfo.zero, List.filter, List.foldl,
          max_def, min_def]
      rw [hs]
      norm_num

/-- C10: for every device and collected capacities, `quick_check` yields
exactly the three sub-tests (HPA, capacity consistency, suspect features),
the suspect-features sub-test is always SKIPPED, and the aggregated verdict
is always GENUINE or SUSPICIOUS — never FAKE and never UNKNOWN. -/
theorem quick_check_three_tests_verdict (device : String) (cap : FakeDetector.CapacityInfo) :
    (FakeDetector.quick_check device cap).tests =
      [FakeDetector.check_hpa device cap, FakeDetector.check_capacity_consistency cap,
       FakeDetector.check_suspect_features device] ∧
    ((FakeDetector.quick_check device cap).tests.map (fun t => t.name)) =
      ["HPA", "Capacidade", "Características suspeitas"] ∧
    ((FakeDetector.quick_check device cap).tests.getLast?).map (fun t => t.result) =
      some FakeDetector.TestResult.SKIPPED ∧
    ((FakeDetector.quick_check device cap).status = FakeDetector.FakeStatus.GENUINE ∨
     (FakeDetector.quick_check device cap).status = FakeDetector.FakeStatus.SUSPICIOUS) := by
  cases hh : cap.has_hpa <;> cases hm : cap.has_capacity_mismatch 5 <;>
    simp [FakeDetector.quick_check, FakeDetector.calculate_final_status,
      FakeDetector.check_hpa, FakeDetector.check_capacity_consistency,
      FakeDetector.check_suspect_features, FakeDetector.FakeDetectorReport.get_failed_tests,
      FakeDetector.FakeDetectorReport.get_warnings, hh, hm]

/-- C6: in every report whose tests contain a FAILED `f3probe` sub-test
(the destructive probe reported fake), the aggregated verdict is FAKE with
confidence exactly 100, regardless of the other sub-tests. -/
theorem f3probe_failed_forces_fake (r : FakeDetector.FakeDetectorReport)
    (h : ∃ t ∈ r.tests, t.name = "f3probe" ∧ t.result = FakeDetector.TestResult.FAILED) :
    (FakeDetector.calculate_final_status r).status = FakeDetector.FakeStatus.FAKE ∧
    (FakeDetector.calculate_final_status r).confidence = 100 := by
  obtain ⟨t, ht, hn, hres⟩ := h
  have hany : (r.get_failed_tests.any
      (fun t => t.name == "f3probe" && t.result == FakeDetector.TestResult.FAILED)) = true := by
    apply List.any_eq_true.mpr
    exact ⟨t, List.mem_filter.mpr ⟨ht, by simp [hres]⟩, by simp [hn, hres]⟩
  simp [FakeDetector.calculate_final_status, hany]

/-- Witness for C6 at a report whose tests also passed and warned. -/
theorem f3probe_failed_forces_fake_witness :
    (FakeDetector.calculate_final_status report_with_f3probe_failed).status =
      FakeDetector.FakeStatus.FAKE ∧
    (FakeDetector.calculate_final_status report_with_f3probe_failed).confidence = 100 :=
  f3probe_failed_forces_fake report_with_f3probe_failed
    ⟨f3probe_failed_subtest, by simp [report_with_f3probe_failed], rfl, rfl⟩

/-- C7: every health score is clamped to [0,100]; and a snapshot with
`health_passed = false` and every sector, hour, temperature and CRC metric
nominal scores exactly 50 (the flat −50 penalty) and carries the
immediate-backup recommendation. -/
theorem health_score_bounds_and_failed_floor :
    (∀ s : SmartParser.SmartData,
      0 ≤ (HealthScore.calculate_health s).score ∧ (HealthScore.calculate_health s).score ≤ 100) ∧
    (∀ s : SmartParser.SmartData,
      s.health_passed = false → s.reallocated_sectors = 0 → s.pending_sectors = 0 →
      s.uncorrectable_sectors = 0 → s.power_on_hours = 0 → s.temperature = none →
      s.get_attr 199 = none →
      (HealthScore.calculate_health s).score = 50 ∧
      "BACKUP IMEDIATO! Disco pode falhar a qualquer momento." ∈
        (HealthScore.calculate_health s).recommendations) := by
  constructor
  · intro s
    show 0 ≤ max 0 (min 100 _) ∧ max 0 (min 100 _) ≤ 100
    exact ⟨le_max_left 0 _, max_le (by norm_num) (min_le_left _ _)⟩
  · intro s h1 h2 h3 h4 h5 h6 h7
    simp [HealthScore.calculate_health, HealthScore.health_pass_section,
      HealthScore.reallocated_section, HealthScore.pending_section,
      HealthScore.uncorrectable_section, HealthScore.poh_section, HealthScore.temp_section,
      HealthScore.crc_section, h1, h2, h3, h4, h5, h6, h7]

/-- Witness for C7 at a concrete failed-health snapshot. -/
theorem health_floor_witness :
    (HealthScore.calculate_health snapshot_failed_health).score = 50 ∧
    "BACKUP IMEDIATO! Disco pode falhar a qualquer momento." ∈
      (HealthScore.calculate_health snapshot_failed_health).recommendations :=
  health_score_bounds_and_failed_floor.2 snapshot_failed_health rfl rfl rfl rfl rfl rfl rfl

/-- `_parse_device_info` touches neither `driver` nor `raw_output`. -/
theorem parse_device_info_fields (s : SmartParser.SmartData) (out : String) :
    (SmartParser.parse_device_info s out).driver = s.driver ∧
    (SmartParser.parse_device_info s out).raw_output = s.raw_output := by
  simp [SmartParser.parse_device_info]

/-- `_parse_smart_status` touches neither `driver` nor `raw_output`. -/
theorem parse_smart_status_fields (s : SmartParser.SmartData) (out : String) :
    (SmartParser.parse_smart_status s out).driver = s.driver ∧
    (SmartParser.parse_smart_status s out).raw_output = s.raw_output := by
  simp [SmartParser.parse_smart_status]

/-- `_parse_attributes` touches neither `driver` nor `raw_output`. -/
theorem parse_attributes_fields (s : SmartParser.SmartData) (out : String) :
    (SmartParser.parse_attributes s out).driver = s.driver ∧
    (SmartParser.parse_attributes s out).raw_output = s.raw_output := by
  unfold SmartParser.parse_attributes
  dsimp only
  split <;> simp [SmartParser.parse_nvme_attributes]

/-- `_extract_metrics` touches neither `driver` nor `raw_output`. -/
theorem extract_metrics_fields (s : SmartParser.SmartData) (out : String) :
    (SmartParser.extract_metrics s out).driver = s.driver ∧
    (SmartParser.extract_metrics s out).raw_output = s.raw_output := by
  simp [SmartParser.extract_metrics]

/-- The populated snapshot records exactly the accepted driver and output. -/
theorem populate_fields (device driver out : String) :
    (SmartParser.populate device driver out).driver = driver ∧
    (SmartParser.populate device driver out).raw_output = out := by
  unfold SmartParser.populate
  constructor
  · rw [(extract_metrics_fields _ _).1, (parse_attributes_fields _ _).1,
        (parse_smart_status_fields _ _).1, (parse_device_info_fields _ _).1]
  · rw [(extract_metrics_fields _ _).2, (parse_attributes_fields _ _).2,
        (parse_smart_status_fields _ _).2, (parse_device_info_fields _ _).2]

/-- C8: when the first two driver hints of the fixed order (none/auto,
sat, scsi, ata, usbjmicron, nvme) answer with the USB-bridge
transport-error marker and the third answers with a Model marker and no
error marker, `parse` selects the third response, records `"scsi"` (the
third hint) as the snapshot's driver and that response as its raw output,
and the whole snapshot is a function of the accepted response alone — no
data of the failed attempts is merged. -/
theorem parse_uses_third_driver (device o1 o2 o3 : String) (rest : List (Option String))
    (h1 : containsSub o1 "Unknown USB bridge" = true)
    (h2 : containsSub o2 "Unknown USB bridge" = true)
    (h3 : containsSub o3 "Model" = true)
    (h4 : containsSub o3 "Unknown USB bridge" = false)
    (h5 : o3 ≠ "") :
    SmartParser.select_output (some o1 :: some o2 :: some o3 :: rest) = some ("scsi", o3) ∧
    SmartParser.parse device (some o1 :: some o2 :: some o3 :: rest) =
      SmartParser.populate device "scsi" o3 ∧
    (SmartParser.parse device (some o1 :: some o2 :: some o3 :: rest)).driver = "scsi" ∧
    (SmartParser.parse device (some o1 :: some o2 :: some o3 :: rest)).raw_output = o3 := by
  have hsel : SmartParser.select_output (some o1 :: some o2 :: some o3 :: rest) =
      some ("scsi", o3) := by
    simp [SmartParser.select_output, SmartParser.SMART_DRIVERS, SmartParser.acceptable_output,
      h1, h2, h3, h4, h5]
  have hp : SmartParser.parse device (some o1 :: some o2 :: some o3 :: rest) =
      SmartParser.populate device "scsi" o3 := by
    simp [SmartParser.parse, hsel]
  exact ⟨hsel, hp, by rw [hp]; exact (populate_fields _ _ _).1,
    by rw [hp]; exact (populate_fields _ _ _).2⟩

/-- Witness for C8 at concrete tool responses. -/
theorem parse_uses_third_driver_witness :
    SmartParser.select_output
      (some usb_bridge_response :: some usb_bridge_response ::
        some third_driver_response :: []) =
      some ("scsi", third_driver_response) ∧
    (SmartParser.parse "/dev/sdb"
      (some usb_bridge_response :: some usb_bridge_response ::
        some third_driver_response :: [])).driver = "scsi" := by
  have h := parse_uses_third_driver "/dev/sdb" usb_bridge_response usb_bridge_response
    third_driver_response [] (by decide) (by decide) (by decide) (by decide) (by decide)
  exact ⟨h.1, h.2.2.1⟩


/-- C5: with every driver hint answering that a self-test is already in
progress, the source intends a SKIPPED result with the remaining
percentage, but its in-progress branch (lines 335-342) evaluates the
unbound name `parsed` — the NameError escapes `_test_smart_short` and the
single-test boundary converts it into a FAILED result carrying the
exception text, not SKIPPED. -/
theorem smart_short_in_progress_name_error :
    TestRunner.dispatch_body env_in_progress "smart_short" =
      Except.error "name 'parsed' is not defined" ∧
    TestRunner.run_single_test env_in_progress "smart_short" =
      { test_id := "smart_short", status := TestRunner.TestStatus.FAILED,
        message := "Erro: name 'parsed' is not defined", details := "" } := by
  constructor <;> rfl

/-- The poll loop of the smart-short test only ends in a terminal status. -/
theorem smart_short_poll_terminal (polls : List (Bool × Option String)) :
    TestRunner.isTerminal (TestRunner.smart_short_poll polls).status = true := by
  induction polls with
  | nil => rfl
  | cons p rest ih =>
    obtain ⟨c, log⟩ := p
    unfold TestRunner.smart_short_poll
    split
    · rfl
    · split
      · split
        · rfl
        · split
          · rfl
          · exact ih
      · exact ih

/-- The read-sample loop only ends in a terminal status. -/
theorem read_sample_loop_terminal (n : Nat) (cs ds : List Bool) (e : Nat) :
    TestRunner.isTerminal (TestRunner.read_sample_loop n cs ds e).status = true := by
  induction n generalizing cs ds e with
  | zero =>
    unfold TestRunner.read_sample_loop
    split <;> rfl
  | succ n ih =>
    unfold TestRunner.read_sample_loop
    split
    · rfl
    · exact ih _ _ _

/-- A normally-returned smart-short result is terminal. -/
theorem test_smart_short_ok_terminal (w : TestRunner.SmartShortWorld)
    (r : TestRunner.TestResult) (h : TestRunner.test_smart_short w = Except.ok r) :
    TestRunner.isTerminal r.status = true := by
  unfold TestRunner.test_smart_short at h
  dsimp only at h
  split at h
  · split at h
    · simp at h
    · split at h
      · simp at h
      · injection h with h
        subst h
        rfl
  · injection h with h
    subst h
    exact smart_short_poll_terminal _

/-- The read-sample test only returns terminal statuses. -/
theorem test_read_sample_terminal (w : TestRunner.ReadSampleWorld) :
    TestRunner.isTerminal (TestRunner.test_read_sample w).status = true := by
  unfold TestRunner.test_read_sample
  split
  · rfl
  · split
    · rfl
    · exact read_sample_loop_terminal _ _ _ _

/-- The speed test only returns terminal statuses. -/
theorem test_speed_terminal (w : TestRunner.SpeedWorld) :
    TestRunner.isTerminal (TestRunner.test_speed w).status = true := by
  unfold TestRunner.test_speed
  split
  · rfl
  · split <;> rfl

/-- The f3probe test only returns terminal statuses. -/
theorem test_f3probe_terminal (w : TestRunner.F3probeWorld) :
    TestRunner.isTerminal (TestRunner.test_f3probe w).status = true := by
  unfold TestRunner.test_f3probe
  split
  · rfl
  · split
    · rfl
    · split <;> rfl

/-- Every normally-returned dispatched body result is terminal. -/
theorem dispatch_ok_terminal (env : TestRunner.TestEnv) (tid : String)
    (r : TestRunner.TestResult) (h : TestRunner.dispatch_body env tid = Except.ok r) :
    TestRunner.isTerminal r.status = true := by
  unfold TestRunner.dispatch_body at h
  split at h
  · injection h with h; subst h; rfl
  · split at h
    · injection h with h; subst h; rfl
    · split at h
      · injection h with h; subst h; rfl
      · split at h
        · exact test_smart_short_ok_terminal _ _ h
        · split at h
          · injection h with h; subst h; exact test_read_sample_terminal _
          · split at h
            · injection h with h; subst h; exact test_speed_terminal _
            · split at h
              · injection h with h; subst h; exact test_f3probe_terminal _
              · split at h
                · simp at h
                · injection h with h; subst h; rfl

/-- Every result `_run_single_test` records is terminal: the statuses the
bodies construct are COMPLETED/FAILED/CANCELLED/SKIPPED and the boundary
converts every escaping exception to FAILED. -/
theorem run_single_test_terminal (env : TestRunner.TestEnv) (tid : String) :
    TestRunner.isTerminal (TestRunner.run_single_test env tid).status = true := by
  unfold TestRunner.run_single_test
  split
  · rfl
  · cases hd : TestRunner.dispatch_body env tid with
    | ok r => exact dispatch_ok_terminal env tid r hd
    | error e => rfl

/-- Looking up the key just stored. -/
theorem lookup_upsert_self (m : List (String × TestRunner.TestResult)) (k : String)
    (v : TestRunner.TestResult) :
    TestRunner.lookupResult (TestRunner.upsert m k v) k = some v := by
  induction m with
  | nil => simp [TestRunner.upsert, TestRunner.lookupResult]
  | cons p rest ih =>
    unfold TestRunner.upsert
    by_cases h : p.1 = k
    · simp [TestRunner.lookupResult, h]
    · simp [TestRunner.lookupResult, h, ih]

/-- Storing one key does not change the others. -/
theorem lookup_upsert_ne (m : List (String × TestRunner.TestResult)) (k k' : String)
    (v : TestRunner.TestResult) (h : k' ≠ k) :
    TestRunner.lookupResult (TestRunner.upsert m k v) k' = TestRunner.lookupResult m k' := by
  induction m with
  | nil => simp [TestRunner.upsert, TestRunner.lookupResult, Ne.symm h]
  | cons p rest ih =>
    unfold TestRunner.upsert
    by_cases hp : p.1 = k
    · simp [TestRunner.lookupResult, hp, Ne.symm h]
    · simp [TestRunner.lookupResult, hp, ih]

/-- An upsert never removes a recorded result. -/
theorem upsert_preserves_isSome (m : List (String × TestRunner.TestResult))
    (k k' : String) (v : TestRunner.TestResult)
    (h : (TestRunner.lookupResult m k').isSome = true) :
    (TestRunner.lookupResult (TestRunner.upsert m k v) k').isSome = true := by
  by_cases he : k' = k
  · subst he
    rw [lookup_upsert_self]
    rfl
  · rw [lookup_upsert_ne _ _ _ _ he]
    exact h

/-- With no cancellation, the run loop keeps every already-recorded result. -/
theorem run_go_preserves (envs : Nat → TestRunner.TestEnv) (flags : Nat → Bool)
    (hf : ∀ j, flags j = false) :
    ∀ (tests : List TestRunner.TestDefinition) (i : Nat)
      (acc : List (String × TestRunner.TestResult)) (k : String),
      (TestRunner.lookupResult acc k).isSome = true →
      (TestRunner.lookupResult
        (TestRunner.run_tests_go envs flags tests i false acc).1 k).isSome = true := by
  intro tests
  induction tests with
  | nil =>
    intro i acc k h
    simpa [TestRunner.run_tests_go] using h
  | cons td rest ih =>
    intro i acc k h
    unfold TestRunner.run_tests_go
    simp only [Bool.false_eq_true, if_false]
    rw [hf i]
    exact ih (i + 1) _ k (upsert_preserves_isSome _ _ _ _ h)

/-- With no cancellation, the run loop records a result for every test of
the list — whatever its bodies did. -/
theorem run_go_records (envs : Nat → TestRunner.TestEnv) (flags : Nat → Bool)
    (hf : ∀ j, flags j = false) :
    ∀ (tests : List TestRunner.TestDefinition) (i : Nat)
      (acc : List (String × TestRunner.TestResult)),
      ∀ td ∈ tests,
      (TestRunner.lookupResult
        (TestRunner.run_tests_go envs flags tests i false acc).1 td.id).isSome = true := by
  intro tests
  induction tests with
  | nil =>
    intro i acc td hmem
    simp at hmem
  | cons td0 rest ih =>
    intro i acc td hmem
    unfold TestRunner.run_tests_go
    simp only [Bool.false_eq_true, if_false]
    rw [hf i]
    rcases List.mem_cons.mp hmem with heq | hmem2
    · subst heq
      exact run_go_preserves envs flags hf rest (i + 1) _ td.id
        (by rw [lookup_upsert_self]; rfl)
    · exact ih (i + 1) _ td hmem2

/-- C3: an exception escaping a test body is caught at the single-test
boundary and converted into a FAILED result carrying the exception text;
and, absent cancellation, the session continues to the next test no matter
what the bodies did — every listed test ends with a recorded result and
the run still delivers `on_session_complete` as its final event (no
exception crosses the session boundary: `run_tests` is total). -/
theorem exception_caught_at_test_boundary :
    (∀ (env : TestRunner.TestEnv) (tid e : String),
      (TestRunner.AVAILABLE_TESTS.find? (fun td => td.id == tid)).isSome = true →
      TestRunner.dispatch_body env tid = Except.error e →
      TestRunner.run_single_test env tid =
        { test_id := tid, status := TestRunner.TestStatus.FAILED,
          message := "Erro: " ++ e, details := "" }) ∧
    (∀ (envs : Nat → TestRunner.TestEnv) (flags : Nat → Bool)
        (tests : List TestRunner.TestDefinition),
      (∀ j, flags j = false) →
      (∀ td ∈ tests,
        (TestRunner.lookupResult
          (TestRunner.run_tests envs flags tests false).1 td.id).isSome = true) ∧
      (TestRunner.run_tests envs flags tests false).2.getLast? =
        some TestRunner.Event.session_complete) := by
  constructor
  · intro env tid e hsome hdisp
    have h1 : ((TestRunner.AVAILABLE_TESTS.find? (fun td => td.id == tid)).isNone) = false := by
      cases hfind : TestRunner.AVAILABLE_TESTS.find? (fun td => td.id == tid) <;>
        simp_all
    simp [TestRunner.run_single_test, h1, hdisp]
  · intro envs flags tests hf
    constructor
    · intro td hmem
      simpa [TestRunner.run_tests] using run_go_records envs flags hf tests 0 [] td hmem
    · show ((TestRunner.run_tests_go envs flags tests 0 false []).2 ++
        [TestRunner.Event.session_complete]).getLast? = some TestRunner.Event.session_complete
      exact List.getLast?_concat _

/-- Witness for C3: the badblocks dispatch (whose body raises
AttributeError) is converted to FAILED at the boundary, and a one-test
session still records its result. -/
theorem exception_caught_at_test_boundary_witness :
    TestRunner.run_single_test env_cancelled_read "badblocks_ro" =
      { test_id := "badblocks_ro", status := TestRunner.TestStatus.FAILED,
        message := "Erro: " ++ "type object 'TestRunner' has no attribute '_run_badblocks'",
        details := "" } ∧
    (TestRunner.lookupResult
      (TestRunner.run_tests (fun _ => env_cancelled_read) (fun _ => false)
        [td_smart_info] false).1 "smart_info").isSome = true := by
  constructor
  · exact exception_caught_at_test_boundary.1 env_cancelled_read "badblocks_ro"
      "type object 'TestRunner' has no attribute '_run_badblocks'" rfl rfl
  · exact (exception_caught_at_test_boundary.2 (fun _ => env_cancelled_read)
      (fun _ => false) [td_smart_info] (fun _ => rfl)).1 td_smart_info (by simp)

/-- C2: because the `class TestRunner` body ends at the line-662 dedent,
`_run_badblocks` does not exist on the class: every surface-scan request
(badblocks read-only, read-write or destructive-write) raises
AttributeError at the dispatch and is converted to a FAILED result whose
message is the exception text — not the unmount instruction — and no scan
subprocess can be spawned.  The dead `_run_badblocks` body itself (second
conjunct) does implement the claim: on a mounted device it fails with the
explicit unmount instruction, before any subprocess is spawned. -/
theorem badblocks_mount_guard_unreachable :
    (∀ env : TestRunner.TestEnv,
      TestRunner.run_single_test env "badblocks_ro" =
        { test_id := "badblocks_ro", status := TestRunner.TestStatus.FAILED,
          message := "Erro: type object 'TestRunner' has no attribute '_run_badblocks'",
          details := "" } ∧
      TestRunner.run_single_test env "badblocks_rw" =
        { test_id := "badblocks_rw", status := TestRunner.TestStatus.FAILED,
          message := "Erro: type object 'TestRunner' has no attribute '_run_badblocks'",
          details := "" } ∧
      TestRunner.run_single_test env "badblocks_wipe" =
        { test_id := "badblocks_wipe", status := TestRunner.TestStatus.FAILED,
          message := "Erro: type object 'TestRunner' has no attribute '_run_badblocks'",
          details := "" }) ∧
    (∀ (w : TestRunner.BadblocksWorld) (device mode : String),
      w.installed = true →
      TestRunner.is_mounted w.partitions device = true →
      TestRunner.run_badblocks_source w device mode =
        ({ test_id := "badblocks_" ++ mode, status := TestRunner.TestStatus.FAILED,
           message := "Disco montado! Desmonte antes de testar.",
           details := "Use: sudo umount " ++ device ++ "*" }, false)) := by
  constructor
  · intro env
    exact ⟨rfl, rfl, rfl⟩
  · intro w device mode h1 h2
    simp [TestRunner.run_badblocks_source, h1, h2]

/-- Witness for C2 at a concrete environment and a mounted device. -/
theorem badblocks_mount_guard_unreachable_witness :
    TestRunner.run_single_test env_cancelled_read "badblocks_ro" =
      { test_id := "badblocks_ro", status := TestRunner.TestStatus.FAILED,
        message := "Erro: type object 'TestRunner' has no attribute '_run_badblocks'",
        details := "" } ∧
    TestRunner.run_badblocks_source mounted_badblocks_world "/dev/sda1" "ro" =
      ({ test_id := "badblocks_" ++ "ro", status := TestRunner.TestStatus.FAILED,
         message := "Disco montado! Desmonte antes de testar.",
         details := "Use: sudo umount " ++ "/dev/sda1" ++ "*" }, false) :=
  ⟨(badblocks_mount_guard_unreachable.1 env_cancelled_read).1,
   badblocks_mount_guard_unreachable.2 mounted_badblocks_world "/dev/sda1" "ro" rfl rfl⟩

/-- C1: for a session [A, B, C] (distinct ids) where the cancel flag is
still clear at the check after A, B's execution returns CANCELLED, and the
flag is set at the check after B: the results mapping holds A's (terminal)
result and B's CANCELLED result but no entry for C, the delivered events
are exactly A's and B's progress/complete pairs followed by one
`on_session_complete` — so B's `on_test_complete` precedes it and it is
delivered exactly once. -/
theorem run_tests_cancel_mid_session
    (tdA tdB tdC : TestRunner.TestDefinition) (envs : Nat → TestRunner.TestEnv)
    (flags : Nat → Bool)
    (hAB : tdA.id ≠ tdB.id) (hAC : tdA.id ≠ tdC.id) (hBC : tdB.id ≠ tdC.id)
    (h0 : flags 0 = false) (h1 : flags 1 = true)
    (hB : (TestRunner.run_single_test (envs 1) tdB.id).status =
      TestRunner.TestStatus.CANCELLED) :
    TestRunner.lookupResult (TestRunner.run_tests envs flags [tdA, tdB, tdC] false).1 tdA.id =
      some (TestRunner.run_single_test (envs 0) tdA.id) ∧
    TestRunner.isTerminal (TestRunner.run_single_test (envs 0) tdA.id).status = true ∧
    TestRunner.lookupResult (TestRunner.run_tests envs flags [tdA, tdB, tdC] false).1 tdB.id =
      some (TestRunner.run_single_test (envs 1) tdB.id) ∧
    (TestRunner.run_single_test (envs 1) tdB.id).status = TestRunner.TestStatus.CANCELLED ∧
    TestRunner.lookupResult (TestRunner.run_tests envs flags [tdA, tdB, tdC] false).1 tdC.id =
      none ∧
    (TestRunner.run_tests envs flags [tdA, tdB, tdC] false).2 =
      [TestRunner.Event.progress tdA.id 0 ("Iniciando " ++ tdA.name ++ "..."),
       TestRunner.Event.test_complete (TestRunner.run_single_test (envs 0) tdA.id),
       TestRunner.Event.progress tdB.id 0 ("Iniciando " ++ tdB.name ++ "..."),
       TestRunner.Event.test_complete (TestRunner.run_single_test (envs 1) tdB.id),
       TestRunner.Event.session_complete] ∧
    (TestRunner.run_tests envs flags [tdA, tdB, tdC] false).2.count
      TestRunner.Event.session_complete = 1 := by
  have hAB2 : (tdA.id == tdB.id) = false := by simpa using hAB
  have hAC2 : (tdA.id == tdC.id) = false := by simpa using hAC
  have hBC2 : (tdB.id == tdC.id) = false := by simpa using hBC
  have hrun : TestRunner.run_tests envs flags [tdA, tdB, tdC] false =
      ([(tdA.id, TestRunner.run_single_test (envs 0) tdA.id),
        (tdB.id, TestRunner.run_single_test (envs 1) tdB.id)],
       [TestRunner.Event.progress tdA.id 0 ("Iniciando " ++ tdA.name ++ "..."),
        TestRunner.Event.test_complete (TestRunner.run_single_test (envs 0) tdA.id),
        TestRunner.Event.progress tdB.id 0 ("Iniciando " ++ tdB.name ++ "..."),
        TestRunner.Event.test_complete (TestRunner.run_single_test (envs 1) tdB.id),
        TestRunner.Event.session_complete]) := by
    simp [TestRunner.run_tests, TestRunner.run_tests_go, TestRunner.upsert, h0, h1, hAB2]
  refine ⟨?_, run_single_test_terminal _ _, ?_, hB, ?_, ?_, ?_⟩
  · rw [hrun]
    simp [TestRunner.lookupResult]
  · rw [hrun]
    simp [TestRunner.lookupResult, hAB2]
  · rw [hrun]
    simp [TestRunner.lookupResult, hAC2, hBC2]
  · rw [hrun]
  · rw [hrun]
    simp [List.count_cons]

/-- Witness for C1: a concrete session [smart_info, read_sample,
speed_test] whose read-sample test observes cancellation. -/
theorem run_tests_cancel_mid_session_witness :
    TestRunner.lookupResult
      (TestRunner.run_tests (fun _ => env_cancelled_read) flags_cancel_after_second
        [td_smart_info, td_read_sample, td_speed_test] false).1 "speed_test" = none ∧
    (TestRunner.run_tests (fun _ => env_cancelled_read) flags_cancel_after_second
      [td_smart_info, td_read_sample, td_speed_test] false).2.count
      TestRunner.Event.session_complete = 1 := by
  have h := run_tests_cancel_mid_session td_smart_info td_read_sample td_speed_test
    (fun _ => env_cancelled_read) flags_cancel_after_second
    (by decide) (by decide) (by decide) rfl rfl rfl
  exact ⟨h.2.2.2.2.1, h.2.2.2.2.2.2⟩

end HddMonitor
